import Mathlib

/-!
Shallow embedding of the prompt-moderation core of a Flask/PostgreSQL API
(`app/routes/prompts.py`, `app/routes/votes.py`, `app/utils/db.py`).

SQL queries are modelled row-by-row: inner joins become `Option`-valued
lookups whose failure drops the row, aggregate `SUM` is `NULL` (here `none`)
on the empty row set, and `CASE WHEN` conditions are evaluated in SQL's
three-valued logic (comparison with a SQL NULL is `unknown`, and a `CASE`
takes its `ELSE` branch whenever the condition is not true).

`execute_query` (app/utils/db.py) opens a fresh connection per call and
commits that single query before returning, so every query is one atomic
transaction of its own; this is reflected by the fallible and interleaved
execution models further down.
-/

namespace Pojat

/-- SQL three-valued truth values. -/
inductive TV where
  | tt
  | ff
  | unknown
deriving DecidableEq, Repr

/-- SQL `=` on nullable integers: comparison with NULL is `unknown`. -/
def sqlEq : Option Nat → Option Nat → TV
  | some a, some b => if a = b then .tt else .ff
  | _, _ => .unknown

/-- SQL `IS NOT NULL`. -/
def sqlNotNull : Option Nat → TV
  | some _ => .tt
  | none => .ff

/-- SQL three-valued `AND`. -/
def sqlAnd : TV → TV → TV
  | .ff, _ => .ff
  | _, .ff => .ff
  | .tt, .tt => .tt
  | _, _ => .unknown

/-- `CASE WHEN cond THEN x ELSE y END`: the THEN branch fires only when
the condition evaluates to true. -/
def sqlCase {α : Type} (cond : TV) (x y : α) : α :=
  match cond with
  | .tt => x
  | _ => y

/-- Row of the `utilisateur` table (the fields the core reads). -/
structure Utilisateur where
  id_utilisateur : Nat
  role : String
  id_groupe : Option Nat
deriving DecidableEq, Repr

/-- Row of the `prompt` table (the fields the core reads and writes). -/
structure Prompt where
  id_prompt : Nat
  statut : String
  id_createur : Nat
  date_creation : Nat
  date_derniere_modification : Option Nat
deriving DecidableEq, Repr

/-- Row of the `vote` table. -/
structure Vote where
  id_vote : Nat
  id_utilisateur : Nat
  id_prompt : Nat
deriving DecidableEq, Repr

/-- Row of the `note` table. -/
structure Note where
  id_note : Nat
  id_utilisateur : Nat
  id_prompt : Nat
  valeur : ℚ
deriving DecidableEq, Repr

/-- The database state; `next_vote_id` models the `id_vote` sequence backing
`INSERT ... RETURNING id_vote`. -/
structure DB where
  prompts : List Prompt
  votes : List Vote
  notes : List Note
  utilisateurs : List Utilisateur
  next_vote_id : Nat
deriving DecidableEq, Repr

/-- `SELECT ... FROM prompt WHERE id_prompt = %s` (first matching row). -/
def DB.findPrompt (db : DB) (pid : Nat) : Option Prompt :=
  db.prompts.find? (fun p => p.id_prompt == pid)

/-- `JOIN utilisateur u ON ... = u.id_utilisateur` as a row lookup. -/
def DB.findUser (db : DB) (uid : Nat) : Option Utilisateur :=
  db.utilisateurs.find? (fun u => u.id_utilisateur == uid)

/-- `SELECT id_vote FROM vote WHERE id_utilisateur = %s AND id_prompt = %s`
(votes.py check_vote_query) — whether a row exists. -/
def DB.hasVote (db : DB) (uid pid : Nat) : Bool :=
  (db.votes.find? (fun v => v.id_utilisateur == uid && v.id_prompt == pid)).isSome

/-- `INSERT INTO vote (id_utilisateur, id_prompt) VALUES (%s, %s) RETURNING id_vote`
(votes.py vote_query). -/
def DB.insertVote (db : DB) (uid pid : Nat) : Nat × DB :=
  (db.next_vote_id,
   { db with
      votes := db.votes ++ [⟨db.next_vote_id, uid, pid⟩],
      next_vote_id := db.next_vote_id + 1 })

/-- `UPDATE prompt SET statut = %s, date_derniere_modification = %s WHERE id_prompt = %s`. -/
def DB.updatePromptStatut (db : DB) (pid : Nat) (st : String) (ts : Nat) : DB :=
  { db with
      prompts := db.prompts.map (fun p =>
        if p.id_prompt == pid then
          { p with statut := st, date_derniere_modification := some ts }
        else p) }

/-- The `CASE WHEN u1.id_groupe = u2.id_groupe AND u1.id_groupe IS NOT NULL
THEN 2 ELSE 1 END` expression of the points query (votes.py lines 59–62,
prompts.py lines 305–308). -/
def votePointsCase (g1 g2 : Option Nat) : Nat :=
  sqlCase (sqlAnd (sqlEq g1 g2) (sqlNotNull g1)) 2 1

/-- One candidate row of the points query join:
`FROM vote v JOIN utilisateur u1 ON v.id_utilisateur = u1.id_utilisateur
JOIN prompt p ON v.id_prompt = p.id_prompt
JOIN utilisateur u2 ON p.id_createur = u2.id_utilisateur
WHERE v.id_prompt = %s`; a failed (inner) join or the WHERE filter drops
the row (`none`). -/
def votePointRow (db : DB) (pid : Nat) (v : Vote) : Option Nat :=
  if v.id_prompt == pid then
    match db.findUser v.id_utilisateur, db.findPrompt v.id_prompt with
    | some u1, some p =>
      match db.findUser p.id_createur with
      | some u2 => some (votePointsCase u1.id_groupe u2.id_groupe)
      | none => none
    | _, _ => none
  else none

/-- All rows of the points query join over an explicit vote list. -/
def votePointRowsOf (db : DB) (pid : Nat) (vs : List Vote) : List Nat :=
  vs.filterMap (votePointRow db pid)

def votePointRows (db : DB) (pid : Nat) : List Nat :=
  votePointRowsOf db pid db.votes

/-- SQL `SUM` over a row set: NULL on the empty set. -/
def sqlSumNat : List Nat → Option Nat
  | [] => none
  | rows => some rows.sum

/-- Python `x['total_points'] if x['total_points'] else 0`: both SQL NULL
(Python `None`) and 0 are falsy. -/
def pyFalsyToZero : Option Nat → Nat
  | none => 0
  | some n => if n == 0 then 0 else n

/-- `total_points` as computed by votes.py lines 57–71 and prompts.py
lines 303–317 (the two points queries are textually identical). -/
def totalPoints (db : DB) (pid : Nat) : Nat :=
  pyFalsyToZero (sqlSumNat (votePointRows db pid))

/-- Outcome of `vote_prompt` (votes.py), tagged with the source's HTTP
status and error message. `points_needed` is the Python integer
`6 - total_points`. -/
inductive VoteResult where
  | notFound                                            -- 404 "Prompt non trouvé"
  | notRappel                                           -- 400 "Ce prompt n'est pas en état de Rappel"
  | ownPrompt                                           -- 403 "Vous ne pouvez pas voter pour votre propre prompt"
  | alreadyVoted                                        -- 409 "Vous avez déjà voté pour ce prompt"
  | serverError                                         -- 500, the except-branch
  | activated (vote_id total_points : Nat)              -- 200, activation fired
  | recorded (vote_id total_points : Nat) (points_needed : Int)  -- 200, no activation
deriving DecidableEq, Repr

/-- HTTP status code returned by votes.py for each outcome. -/
def VoteResult.httpStatus : VoteResult → Nat
  | .notFound => 404
  | .notRappel => 400
  | .ownPrompt => 403
  | .alreadyVoted => 409
  | .serverError => 500
  | .activated _ _ => 200
  | .recorded _ _ _ => 200

/-- `vote_prompt` (votes.py lines 10–99), failure-free execution: the four
precondition checks in source order, then insert, tally, and the
conditional activation update (`CURRENT_TIMESTAMP` is the `now` argument). -/
def vote_prompt (current_user_id prompt_id now : Nat) (db : DB) : VoteResult × DB :=
  match db.findPrompt prompt_id with
  | none => (.notFound, db)
  | some p =>
    if p.statut ≠ "rappel" then (.notRappel, db)
    else if p.id_createur == current_user_id then (.ownPrompt, db)
    else if db.hasVote current_user_id prompt_id then (.alreadyVoted, db)
    else
      let r := db.insertVote current_user_id prompt_id
      let total_points := totalPoints r.2 prompt_id
      if total_points ≥ 6 then
        (.activated r.1 total_points, r.2.updatePromptStatut prompt_id "activer" now)
      else
        (.recorded r.1 total_points ((6 : Int) - total_points), r.2)

/-- Outcome of `update_prompt_status` (prompts.py lines 124–186). -/
inductive StatusUpdateResult where
  | invalidStatut           -- 400 "Statut invalide"
  | notFound                -- 404 "Prompt non trouvé"
  | forbiddenCreator        -- 403 "Vous ne pouvez que demander la suppression de votre prompt"
  | unauthorized            -- 403 "Accès non autorisé"
  | updated (p : Prompt)    -- 200, the `RETURNING` row
deriving DecidableEq, Repr

def StatusUpdateResult.httpStatus : StatusUpdateResult → Nat
  | .invalidStatut => 400
  | .notFound => 404
  | .forbiddenCreator => 403
  | .unauthorized => 403
  | .updated _ => 200

/-- `statuts_valides` (prompts.py line 140). -/
def statuts_valides : List String :=
  ["en_attente", "activer", "a_revoir", "rappel", "a_supprimer"]

/-- `update_prompt_status` (prompts.py lines 124–186): status-string
validation, existence check, then the role-gated authorization ladder
(admin / creator restricted to `a_supprimer` / everyone else denied),
then the unconditional `UPDATE ... RETURNING`. The request body is
modelled as the already-extracted `nouveau_statut`; `datetime.now()` is
the `now` argument. -/
def update_prompt_status (role : String) (current_user_id prompt_id : Nat)
    (nouveau_statut : String) (now : Nat) (db : DB) : StatusUpdateResult × DB :=
  if ¬ statuts_valides.contains nouveau_statut then (.invalidStatut, db)
  else
    match db.findPrompt prompt_id with
    | none => (.notFound, db)
    | some prompt =>
      let is_creator := prompt.id_createur == current_user_id
      let doUpdate : StatusUpdateResult × DB :=
        (.updated { prompt with
                      statut := nouveau_statut,
                      date_derniere_modification := some now },
         db.updatePromptStatut prompt_id nouveau_statut now)
      if role == "admin" then doUpdate
      else if is_creator then
        if nouveau_statut ≠ "a_supprimer" then (.forbiddenCreator, db)
        else doUpdate
      else (.unauthorized, db)

/-- Outcome of `activate_prompt_by_vote` (prompts.py lines 287–341). -/
inductive ActivateResult where
  | unauthorized                    -- 403 "Accès non autorisé"
  | notActivatable                  -- 400 "Ce prompt ne peut pas être activé par vote"
  | notEnoughPoints (total : Nat)   -- 400 "Le minimum de 6 points n'est pas atteint"
  | activated (total : Nat)         -- 200
deriving DecidableEq, Repr

def ActivateResult.httpStatus : ActivateResult → Nat
  | .unauthorized => 403
  | .notActivatable => 400
  | .notEnoughPoints _ => 400
  | .activated _ => 200

/-- `activate_prompt_by_vote` (prompts.py lines 287–341): admin gate, then
`if not prompt or prompt[0]['statut'] != 'rappel'` rejects with 400, then
the same points query as `vote_prompt`, threshold check, and the
activation `UPDATE`. -/
def activate_prompt_by_vote (role : String) (prompt_id now : Nat) (db : DB) :
    ActivateResult × DB :=
  if role ≠ "admin" then (.unauthorized, db)
  else
    match db.findPrompt prompt_id with
    | none => (.notActivatable, db)
    | some p =>
      if p.statut ≠ "rappel" then (.notActivatable, db)
      else
        let total_points := totalPoints db prompt_id
        if total_points < 6 then (.notEnoughPoints total_points, db)
        else (.activated total_points, db.updatePromptStatut prompt_id "activer" now)

/-- The `CASE WHEN u1.id_groupe = u2.id_groupe AND u1.id_groupe IS NOT NULL
THEN n.valeur * 0.6 ELSE n.valeur * 0.4 END` expression of the note query
(prompts.py lines 102–105). -/
def noteCase (g1 g2 : Option Nat) (valeur : ℚ) : ℚ :=
  sqlCase (sqlAnd (sqlEq g1 g2) (sqlNotNull g1)) (valeur * (6 / 10)) (valeur * (4 / 10))

/-- One candidate row of the note query join (prompts.py lines 99–114): a
note of the prompt joined with its rater, the prompt and the creator; the
row carries the weighted value of the CASE expression, and a failed inner
join or the WHERE filter drops it. -/
def noteWeightedRow (db : DB) (pid : Nat) (n : Note) : Option ℚ :=
  if n.id_prompt == pid then
    match db.findUser n.id_utilisateur, db.findPrompt n.id_prompt with
    | some u1, some p =>
      match db.findUser p.id_createur with
      | some u2 => some (noteCase u1.id_groupe u2.id_groupe n.valeur)
      | none => none
    | _, _ => none
  else none

/-- All rows of the note query join over an explicit note list. -/
def noteWeightedRowsOf (db : DB) (pid : Nat) (ns : List Note) : List ℚ :=
  ns.filterMap (noteWeightedRow db pid)

/-- The joined rows of the note query. -/
def noteWeightedRows (db : DB) (pid : Nat) : List ℚ :=
  noteWeightedRowsOf db pid db.notes

/-- SQL `SUM` over rational rows: NULL on the empty set. -/
def sqlSumRat : List ℚ → Option ℚ
  | [] => none
  | rows => some rows.sum

/-- The single result row of the note query:
`COALESCE(SUM(CASE ...) / COUNT(*), 0) AS moyenne_ponderee, COUNT(n.id_note)
AS nombre_notes`. With no joined rows `SUM` is NULL, SQL division is strict
so `NULL / 0` is NULL, and `COALESCE` turns it into 0. -/
structure NotationRow where
  moyenne_ponderee : ℚ
  nombre_notes : Nat
deriving DecidableEq, Repr

def noteQuery (db : DB) (pid : Nat) : NotationRow :=
  let rows := noteWeightedRows db pid
  let avg : ℚ :=
    match sqlSumRat rows with
    | none => 0
    | some s => s / (rows.length : ℚ)
  ⟨avg, rows.length⟩

/-- Outcome of `get_prompt` (prompts.py lines 69–120). The selected row
inner-joins the creator, so a prompt whose creator is missing is a 404. -/
inductive GetPromptResult where
  | notFound                                     -- 404 "Prompt non trouvé"
  | accessDenied                                 -- 403 "Accès non autorisé"
  | promptOnly (p : Prompt)                      -- 200, statut ≠ 'activer'
  | promptWithNotes (p : Prompt) (agg : NotationRow)  -- 200, statut = 'activer'
deriving DecidableEq, Repr

/-- `get_prompt` (prompts.py lines 69–120). The caller context is
`jwt : Option (role, userId)` — `none` when no Authorization header. A
non-`activer` prompt is visible only to an admin or its creator; an
`activer` prompt additionally carries the weighted-note aggregate. -/
def get_prompt (jwt : Option (String × Nat)) (prompt_id : Nat) (db : DB) :
    GetPromptResult :=
  match db.findPrompt prompt_id with
  | none => .notFound
  | some prompt =>
    match db.findUser prompt.id_createur with
    | none => .notFound
    | some _ =>
      if prompt.statut ≠ "activer" then
        match jwt with
        | none => .accessDenied
        | some (role, current_user_id) =>
          if role ≠ "admin" && current_user_id != prompt.id_createur then .accessDenied
          else .promptOnly prompt
      else .promptWithNotes prompt (noteQuery db prompt_id)

/-- A row of the prompt-listing queries: the prompt joined with its creator. -/
def promptCreatorRows (db : DB) : List (Prompt × Utilisateur) :=
  db.prompts.filterMap (fun p => (db.findUser p.id_createur).map (fun u => (p, u)))

/-- `ORDER BY p.date_creation DESC` as a boolean comparator. -/
def dateDescLe (x y : Prompt × Utilisateur) : Bool :=
  y.1.date_creation ≤ x.1.date_creation

/-- `get_prompts` (prompts.py lines 41–66): the `statut` query parameter
defaults to `'activer'`; when the caller is unauthenticated or not an
admin the filter is overwritten with `'activer'`; then
`SELECT ... WHERE p.statut = %s ORDER BY p.date_creation DESC`. The
caller context is `jwt : Option role` (`none` when no Authorization
header) and `statutParam : Option String` (`none` when the query
parameter is absent). -/
def get_prompts (statutParam : Option String) (jwt : Option String) (db : DB) :
    List (Prompt × Utilisateur) :=
  let statut := statutParam.getD "activer"
  let statut :=
    match jwt with
    | none => "activer"
    | some role => if role ≠ "admin" then "activer" else statut
  ((promptCreatorRows db).filter (fun x => x.1.statut == statut)).mergeSort dateDescLe

/-- The `CASE WHEN p.statut = ... THEN ...` sort key of the
pending-moderation query (prompts.py lines 230–236). The query's WHERE
clause restricts rows to the four listed statuses, so the CASE always
matches; the 5 stands for the SQL NULL of a fall-through, which ascending
PostgreSQL ordering would put last. -/
def pendingStatutOrder (s : String) : Nat :=
  if s == "a_supprimer" then 1
  else if s == "rappel" then 2
  else if s == "en_attente" then 3
  else if s == "a_revoir" then 4
  else 5

/-- `ORDER BY CASE ..., p.date_creation ASC` as a boolean comparator. -/
def pendingLe (x y : Prompt × Utilisateur) : Bool :=
  pendingStatutOrder x.1.statut < pendingStatutOrder y.1.statut ||
    (pendingStatutOrder x.1.statut == pendingStatutOrder y.1.statut &&
      x.1.date_creation ≤ y.1.date_creation)

/-- The status filter of the pending-moderation query:
`WHERE p.statut IN ('en_attente', 'a_revoir', 'a_supprimer', 'rappel')`. -/
def pendingStatuts : List String := ["en_attente", "a_revoir", "a_supprimer", "rappel"]

/-- `get_pending_prompts` (prompts.py lines 216–244): admin-only; returns
the prompts (joined with their creator) whose status is in
`pendingStatuts`, ordered by the CASE priority then `date_creation ASC`.
`none` models the 403 "Accès non autorisé" rejection. -/
def get_pending_prompts (role : String) (db : DB) :
    Option (List (Prompt × Utilisateur)) :=
  if role ≠ "admin" then none
  else some
    (((promptCreatorRows db).filter
        (fun x => pendingStatuts.contains x.1.statut)).mergeSort pendingLe)

/-- `vote_prompt` with failure injection for the three queries inside the
`try` block (insert / tally / activation update). Each `execute_query`
call runs in its own transaction (a fresh connection, committed per call,
app/utils/db.py lines 88–114): a failing query is rolled back and has no
effect, the `except` handler answers 500, and the queries already
committed before the failure keep their effects. -/
def vote_prompt_fallible (current_user_id prompt_id now : Nat)
    (failInsert failTally failUpdate : Bool) (db : DB) : VoteResult × DB :=
  match db.findPrompt prompt_id with
  | none => (.notFound, db)
  | some p =>
    if p.statut ≠ "rappel" then (.notRappel, db)
    else if p.id_createur == current_user_id then (.ownPrompt, db)
    else if db.hasVote current_user_id prompt_id then (.alreadyVoted, db)
    else if failInsert then (.serverError, db)
    else
      let r := db.insertVote current_user_id prompt_id
      if failTally then (.serverError, r.2)
      else
        let total_points := totalPoints r.2 prompt_id
        if total_points ≥ 6 then
          if failUpdate then (.serverError, r.2)
          else (.activated r.1 total_points, r.2.updatePromptStatut prompt_id "activer" now)
        else
          (.recorded r.1 total_points ((6 : Int) - total_points), r.2)

/-- Program counter of an in-flight `vote_prompt` call. Each position is
about to run one `execute_query` call, i.e. one atomic transaction; the
Python between two queries runs inside the step that issues the earlier
query's successor. -/
inductive VotePC where
  | checkPromptQ                 -- about to run check_query
  | checkVoteQ                   -- about to run check_vote_query
  | insertQ                      -- about to run vote_query
  | tallyQ (vote_id : Nat)       -- about to run points_query
  | updateQ (vote_id total_points : Nat)  -- about to run update_query
  | done
deriving DecidableEq, Repr

/-- One concurrent `vote_prompt` request: its identity, arguments, program
counter and (once finished) its response. -/
structure VoteThread where
  uid : Nat
  pid : Nat
  now : Nat
  pc : VotePC
  result : Option VoteResult
deriving DecidableEq, Repr

/-- A fresh `vote_prompt` request. -/
def VoteThread.start (uid pid now : Nat) : VoteThread :=
  ⟨uid, pid, now, .checkPromptQ, none⟩

/-- One atomic step of `vote_prompt`: runs the next `execute_query` call
against the shared database and the Python that follows it up to (but not
including) the next query. -/
def voteStep (t : VoteThread) (db : DB) : VoteThread × DB :=
  match t.pc with
  | .checkPromptQ =>
    match db.findPrompt t.pid with
    | none => ({ t with pc := .done, result := some .notFound }, db)
    | some p =>
      if p.statut ≠ "rappel" then ({ t with pc := .done, result := some .notRappel }, db)
      else if p.id_createur == t.uid then
        ({ t with pc := .done, result := some .ownPrompt }, db)
      else ({ t with pc := .checkVoteQ }, db)
  | .checkVoteQ =>
    if db.hasVote t.uid t.pid then
      ({ t with pc := .done, result := some .alreadyVoted }, db)
    else ({ t with pc := .insertQ }, db)
  | .insertQ =>
    let r := db.insertVote t.uid t.pid
    ({ t with pc := .tallyQ r.1 }, r.2)
  | .tallyQ vid =>
    let total_points := totalPoints db t.pid
    if total_points ≥ 6 then ({ t with pc := .updateQ vid total_points }, db)
    else
      ({ t with pc := .done,
                result := some (.recorded vid total_points ((6 : Int) - total_points)) }, db)
  | .updateQ vid total_points =>
    ({ t with pc := .done, result := some (.activated vid total_points) },
     db.updatePromptStatut t.pid "activer" t.now)
  | .done => (t, db)

/-- Run two concurrent `vote_prompt` calls under an explicit interleaving:
`true` steps thread `a`, `false` steps thread `b`. -/
def runSchedule : List Bool → VoteThread → VoteThread → DB →
    VoteThread × VoteThread × DB
  | [], a, b, db => (a, b, db)
  | true :: rest, a, b, db =>
    let r := voteStep a db
    runSchedule rest r.1 b r.2
  | false :: rest, a, b, db =>
    let r := voteStep b db
    runSchedule rest a r.1 r.2

/-! ### Spec-side definitions

These follow the specification's words, to be compared with the
definitions above, which are translated from the source. -/

/-- Per-vote weight as the spec states it: 2 points when the voter's
`groupId` is non-null and equals the prompt creator's `groupId`,
otherwise 1 point. -/
def specVoteWeight (voterGroupe creatorGroupe : Option Nat) : Nat :=
  if voterGroupe ≠ none ∧ voterGroupe = creatorGroupe then 2 else 1

/-- Per-note weight as the spec states it: 0.6 when the rater's `groupId`
is non-null and equals the creator's, otherwise 0.4. -/
def specNoteWeight (raterGroupe creatorGroupe : Option Nat) : ℚ :=
  if raterGroupe ≠ none ∧ raterGroupe = creatorGroupe then 6 / 10 else 4 / 10

/-! ### Helper lemmas -/

/-- The SQL CASE of the points query computes exactly the spec's weight. -/
theorem votePointsCase_eq_specVoteWeight (g1 g2 : Option Nat) :
    votePointsCase g1 g2 = specVoteWeight g1 g2 := by
  rcases g1 with _ | a <;> rcases g2 with _ | b <;>
    simp [votePointsCase, specVoteWeight, sqlEq, sqlNotNull, sqlAnd, sqlCase]
  by_cases h : a = b <;> simp [h, sqlCase]

/-- The SQL CASE of the note query computes the spec's weight times the value. -/
theorem noteCase_eq_specNoteWeight (g1 g2 : Option Nat) (v : ℚ) :
    noteCase g1 g2 v = v * specNoteWeight g1 g2 := by
  rcases g1 with _ | a <;> rcases g2 with _ | b <;>
    simp [noteCase, specNoteWeight, sqlEq, sqlNotNull, sqlAnd, sqlCase, mul_comm]
  by_cases h : a = b <;> simp [h, sqlCase, mul_comm]

/-- Python's falsy-guard around the SQL SUM collapses to the plain sum. -/
theorem pyFalsy_sqlSum (rows : List Nat) :
    pyFalsyToZero (sqlSumNat rows) = rows.sum := by
  cases rows with
  | nil => rfl
  | cons a l =>
    simp only [sqlSumNat, pyFalsyToZero]
    split <;> simp_all

/-- `find?` over the row-rewriting map of the status update. -/
theorem find?_map_statusRewrite (ps : List Prompt) (pid : Nat) (st : String) (ts : Nat) :
    List.find? (fun q => q.id_prompt == pid)
      (ps.map (fun p =>
        if p.id_prompt == pid then
          { p with statut := st, date_derniere_modification := some ts }
        else p)) =
    Option.map (fun p => { p with statut := st, date_derniere_modification := some ts })
      (List.find? (fun q => q.id_prompt == pid) ps) := by
  induction ps with
  | nil => rfl
  | cons p ps ih =>
    by_cases h : p.id_prompt == pid
    · simp only [List.map_cons, if_pos h, List.find?]
      simp [h]
    · simp only [List.map_cons, if_neg h, List.find?]
      simp only [h]
      exact ih

/-- `updatePromptStatut` rewrites exactly the looked-up row. -/
theorem findPrompt_updatePromptStatut (db : DB) (pid : Nat) (st : String) (ts : Nat) :
    (db.updatePromptStatut pid st ts).findPrompt pid =
      (db.findPrompt pid).map
        (fun p => { p with statut := st, date_derniere_modification := some ts }) :=
  find?_map_statusRewrite db.prompts pid st ts

/-- Inserting a vote leaves the prompt table unchanged. -/
theorem findPrompt_insertVote (db : DB) (uid pid q : Nat) :
    (db.insertVote uid pid).2.findPrompt q = db.findPrompt q := rfl

/-! ### Claim theorems -/

/-- C3: for every castVote call the preconditions are checked in this
order, each yielding a distinct error with no vote recorded — the prompt
must exist (else NotFound 404), its status must be `rappel` (else
InvalidState 400), the caller must not be the creator (else Forbidden
403), and no prior vote by the caller may exist (else Conflict 409); the
vote row is inserted exactly when all four hold. -/
theorem castVote_precondition_ladder (db : DB) (uid pid now : Nat) :
    (db.findPrompt pid = none →
      vote_prompt uid pid now db = (.notFound, db)) ∧
    (∀ p, db.findPrompt pid = some p → p.statut ≠ "rappel" →
      vote_prompt uid pid now db = (.notRappel, db)) ∧
    (∀ p, db.findPrompt pid = some p → p.statut = "rappel" → p.id_createur = uid →
      vote_prompt uid pid now db = (.ownPrompt, db)) ∧
    (∀ p, db.findPrompt pid = some p → p.statut = "rappel" → p.id_createur ≠ uid →
      db.hasVote uid pid = true →
      vote_prompt uid pid now db = (.alreadyVoted, db)) ∧
    (∀ p, db.findPrompt pid = some p → p.statut = "rappel" → p.id_createur ≠ uid →
      db.hasVote uid pid = false →
      (vote_prompt uid pid now db).2.votes = db.votes ++ [⟨db.next_vote_id, uid, pid⟩]) ∧
    List.Pairwise (fun a b => a ≠ b ∧ VoteResult.httpStatus a ≠ VoteResult.httpStatus b)
      [VoteResult.notFound, VoteResult.notRappel, VoteResult.ownPrompt,
       VoteResult.alreadyVoted] := by
  refine ⟨?_, ?_, ?_, ?_, ?_, by decide⟩
  · intro h
    simp [vote_prompt, h]
  · intro p hp hst
    simp [vote_prompt, hp, hst]
  · intro p hp hst hcr
    simp [vote_prompt, hp, hst, hcr]
  · intro p hp hst hcr hv
    simp [vote_prompt, hp, hst, hcr, hv]
  · intro p hp hst hcr hv
    simp only [vote_prompt, hp, hst]
    simp only [ne_eq, not_true_eq_false, if_false, beq_iff_eq]
    rw [if_neg (by simpa using hcr), if_neg (by simp [hv])]
    split <;> rfl

/-- A concrete database: prompt 1 in `rappel` by user 100 (groupe 1), one
prior weight-1 vote by user 11; users 12 and 21 have not voted. -/
def dbA : DB :=
  ⟨[⟨1, "rappel", 100, 0, none⟩],
   [⟨1, 11, 1⟩],
   [],
   [⟨100, "user", some 1⟩, ⟨11, "user", none⟩, ⟨12, "user", none⟩, ⟨21, "user", some 1⟩],
   2⟩

/-- Witness for `castVote_precondition_ladder`: all four error branches and
the success branch, at concrete inputs. -/
theorem castVote_precondition_ladder_instance :
    vote_prompt 21 2 99 dbA = (.notFound, dbA) ∧
    vote_prompt 100 1 99 dbA = (.ownPrompt, dbA) ∧
    vote_prompt 11 1 99 dbA = (.alreadyVoted, dbA) ∧
    (vote_prompt 12 1 99 dbA).2.votes = dbA.votes ++ [⟨2, 12, 1⟩] ∧
    vote_prompt 12 3 99 { dbA with prompts := [⟨3, "en_attente", 100, 0, none⟩] }
      = (.notRappel, { dbA with prompts := [⟨3, "en_attente", 100, 0, none⟩] }) := by
  refine ⟨(castVote_precondition_ladder dbA 21 2 99).1 (by decide),
          (castVote_precondition_ladder dbA 100 1 99).2.2.1 ⟨1, "rappel", 100, 0, none⟩
            (by decide) (by decide) (by decide),
          (castVote_precondition_ladder dbA 11 1 99).2.2.2.1 ⟨1, "rappel", 100, 0, none⟩
            (by decide) (by decide) (by decide) (by decide),
          (castVote_precondition_ladder dbA 12 1 99).2.2.2.2.1 ⟨1, "rappel", 100, 0, none⟩
            (by decide) (by decide) (by decide) (by decide),
          (castVote_precondition_ladder _ 12 3 99).2.1 ⟨3, "en_attente", 100, 0, none⟩
            (by decide) (by decide)⟩

/-- C1: for every successful castVote, after the new vote is recorded — if
the recomputed total is at least 6, the prompt's status becomes `activer`
and its `date_derniere_modification` is stamped and the response reports
activation with the total; otherwise the status is unchanged and the
response carries `points_needed = 6 - total`, which equals
`max 0 (6 - total)` and is strictly positive. -/
theorem castVote_threshold_behaviour (db : DB) (uid pid now : Nat) (p : Prompt)
    (hp : db.findPrompt pid = some p) (hst : p.statut = "rappel")
    (hcr : p.id_createur ≠ uid) (hv : db.hasVote uid pid = false) :
    (6 ≤ totalPoints (db.insertVote uid pid).2 pid →
      vote_prompt uid pid now db =
        (.activated db.next_vote_id (totalPoints (db.insertVote uid pid).2 pid),
         (db.insertVote uid pid).2.updatePromptStatut pid "activer" now) ∧
      ((vote_prompt uid pid now db).2.findPrompt pid).map Prompt.statut = some "activer" ∧
      ((vote_prompt uid pid now db).2.findPrompt pid).map Prompt.date_derniere_modification =
        some (some now)) ∧
    (totalPoints (db.insertVote uid pid).2 pid < 6 →
      vote_prompt uid pid now db =
        (.recorded db.next_vote_id (totalPoints (db.insertVote uid pid).2 pid)
          ((6 : Int) - totalPoints (db.insertVote uid pid).2 pid),
         (db.insertVote uid pid).2) ∧
      ((vote_prompt uid pid now db).2.findPrompt pid).map Prompt.statut = some p.statut ∧
      (6 : Int) - totalPoints (db.insertVote uid pid).2 pid =
        max 0 ((6 : Int) - totalPoints (db.insertVote uid pid).2 pid) ∧
      0 < (6 : Int) - totalPoints (db.insertVote uid pid).2 pid) := by
  have hvp : vote_prompt uid pid now db =
      if 6 ≤ totalPoints (db.insertVote uid pid).2 pid then
        (.activated (db.insertVote uid pid).1 (totalPoints (db.insertVote uid pid).2 pid),
         (db.insertVote uid pid).2.updatePromptStatut pid "activer" now)
      else
        (.recorded (db.insertVote uid pid).1 (totalPoints (db.insertVote uid pid).2 pid)
          ((6 : Int) - totalPoints (db.insertVote uid pid).2 pid),
         (db.insertVote uid pid).2) := by
    simp only [vote_prompt, hp, hst]
    simp only [ne_eq, not_true_eq_false, if_false, beq_iff_eq]
    rw [if_neg (by simpa using hcr), if_neg (by simp [hv])]
  constructor
  · intro h6
    rw [hvp, if_pos h6]
    refine ⟨rfl, ?_, ?_⟩ <;>
      simp [findPrompt_updatePromptStatut, findPrompt_insertVote, hp]
  · intro h6
    rw [hvp, if_neg (by omega)]
    refine ⟨rfl, ?_, by omega, by omega⟩
    simp [findPrompt_insertVote, hp]

/-- A concrete database for the activation branch: prompt 1 in `rappel`
by user 100, five prior weight-1 votes by users 11–15; user 16 has not
voted and shares no group. -/
def dbB : DB :=
  ⟨[⟨1, "rappel", 100, 0, none⟩],
   [⟨1, 11, 1⟩, ⟨2, 12, 1⟩, ⟨3, 13, 1⟩, ⟨4, 14, 1⟩, ⟨5, 15, 1⟩],
   [],
   [⟨100, "user", some 1⟩, ⟨11, "user", none⟩, ⟨12, "user", none⟩, ⟨13, "user", none⟩,
    ⟨14, "user", none⟩, ⟨15, "user", none⟩, ⟨16, "user", none⟩],
   6⟩

/-- Witness for `castVote_threshold_behaviour`: user 16's vote on `dbB`
lifts the total to 6 and activates; user 12's vote on `dbA` totals 2 and
reports `points_needed = 4`. -/
theorem castVote_threshold_behaviour_instance :
    (6 ≤ totalPoints (dbB.insertVote 16 1).2 1 ∧
      ((vote_prompt 16 1 99 dbB).2.findPrompt 1).map Prompt.statut = some "activer") ∧
    (totalPoints (dbA.insertVote 12 1).2 1 < 6 ∧
      vote_prompt 12 1 99 dbA = (.recorded 2 2 4, (dbA.insertVote 12 1).2)) := by
  refine ⟨⟨by decide, ?_⟩, ⟨by decide, ?_⟩⟩
  · exact ((castVote_threshold_behaviour dbB 16 1 99 ⟨1, "rappel", 100, 0, none⟩
      (by decide) (by decide) (by decide) (by decide)).1 (by decide)).2.1
  · exact ((castVote_threshold_behaviour dbA 12 1 99 ⟨1, "rappel", 100, 0, none⟩
      (by decide) (by decide) (by decide) (by decide)).2 (by decide)).1

/-- A row of the points query whose joins all resolve carries exactly the
spec's weight. -/
theorem votePointRow_eq_spec (db : DB) (pid : Nat) (p : Prompt) (u2 : Utilisateur)
    (hp : db.findPrompt pid = some p) (hc : db.findUser p.id_createur = some u2)
    (v : Vote) (h : v.id_prompt = pid) (hu : (db.findUser v.id_utilisateur).isSome) :
    votePointRow db pid v =
      some (specVoteWeight ((db.findUser v.id_utilisateur).bind Utilisateur.id_groupe)
        u2.id_groupe) := by
  obtain ⟨u1, hu1⟩ := Option.isSome_iff_exists.mp hu
  unfold votePointRow
  rw [h]
  simp [hu1, hp, hc, votePointsCase_eq_specVoteWeight]

/-- A vote on another prompt contributes no row. -/
theorem votePointRow_eq_none (db : DB) (pid : Nat) (v : Vote) (h : v.id_prompt ≠ pid) :
    votePointRow db pid v = none := by
  unfold votePointRow
  rw [if_neg (by simpa using h)]

/-- The joined point rows agree with the spec's per-vote weights, vote by
vote, whenever the prompt, its creator and every voter resolve. -/
theorem votePointRowsOf_spec (db : DB) (pid : Nat) (p : Prompt) (u2 : Utilisateur)
    (hp : db.findPrompt pid = some p) (hc : db.findUser p.id_createur = some u2) :
    ∀ vs : List Vote,
      (∀ v ∈ vs, v.id_prompt = pid → (db.findUser v.id_utilisateur).isSome) →
      votePointRowsOf db pid vs =
        (vs.filter (fun v => v.id_prompt == pid)).map
          (fun v => specVoteWeight ((db.findUser v.id_utilisateur).bind Utilisateur.id_groupe)
            u2.id_groupe) := by
  intro vs
  induction vs with
  | nil => intro _; rfl
  | cons v vs ih =>
    intro hv
    have hvs := fun w hw hwp => hv w (List.mem_cons_of_mem v hw) hwp
    by_cases h : v.id_prompt = pid
    · rw [votePointRowsOf, List.filterMap_cons,
        votePointRow_eq_spec db pid p u2 hp hc v h (hv v (List.mem_cons_self v vs) h),
        List.filter_cons, if_pos (by simpa using h), List.map_cons]
      exact congrArg _ (ih hvs)
    · rw [votePointRowsOf, List.filterMap_cons, votePointRow_eq_none db pid v h,
        List.filter_cons, if_neg (by simpa using h)]
      exact ih hvs

/-- C2: for every prompt and set of recorded votes, the total computed by
the vote tally (`totalPoints`, used verbatim by both `vote_prompt` and
`activate_prompt_by_vote`) equals the sum over the prompt's votes of a
weight that is 2 when the voter's groupe is non-null and equals the
creator's groupe, and 1 otherwise. -/
theorem totalPoints_eq_spec_sum (db : DB) (pid : Nat) (p : Prompt) (u2 : Utilisateur)
    (hp : db.findPrompt pid = some p) (hc : db.findUser p.id_createur = some u2)
    (hv : ∀ v ∈ db.votes, v.id_prompt = pid → (db.findUser v.id_utilisateur).isSome) :
    totalPoints db pid =
      ((db.votes.filter (fun v => v.id_prompt == pid)).map
        (fun v => specVoteWeight ((db.findUser v.id_utilisateur).bind Utilisateur.id_groupe)
          u2.id_groupe)).sum := by
  unfold totalPoints votePointRows
  rw [pyFalsy_sqlSum, votePointRowsOf_spec db pid p u2 hp hc db.votes hv]

/-- `dbB` after user 21 (same groupe as the creator) also voted: five
weight-1 votes and one weight-2 vote. -/
def dbC2 : DB :=
  ⟨[⟨1, "rappel", 100, 0, none⟩],
   [⟨1, 11, 1⟩, ⟨2, 12, 1⟩, ⟨3, 13, 1⟩, ⟨4, 14, 1⟩, ⟨5, 15, 1⟩, ⟨6, 21, 1⟩],
   [],
   [⟨100, "user", some 1⟩, ⟨11, "user", none⟩, ⟨12, "user", none⟩, ⟨13, "user", none⟩,
    ⟨14, "user", none⟩, ⟨15, "user", none⟩, ⟨21, "user", some 1⟩],
   7⟩

/-- Witness for `totalPoints_eq_spec_sum`: on `dbC2` the tally is 7 and
agrees with the spec's per-vote weights. -/
theorem totalPoints_eq_spec_sum_instance :
    totalPoints dbC2 1 = 7 ∧
    totalPoints dbC2 1 =
      ((dbC2.votes.filter (fun v => v.id_prompt == 1)).map
        (fun v => specVoteWeight ((dbC2.findUser v.id_utilisateur).bind Utilisateur.id_groupe)
          (some 1))).sum := by
  refine ⟨by decide, ?_⟩
  exact totalPoints_eq_spec_sum dbC2 1 ⟨1, "rappel", 100, 0, none⟩ ⟨100, "user", some 1⟩
    (by decide) (by decide) (by decide)

/-- C4: for every status-change request on an existing prompt with a valid
target status — an admin may apply any transition; a non-admin creator may
apply exactly `a_supprimer` (deletion_requested) and is rejected with 403
for any other target; anyone else is rejected with the authorization
error; in both rejection cases the database is unchanged. -/
theorem statusChange_authorization (db : DB) (role : String) (uid pid : Nat)
    (target : String) (now : Nat) (p : Prompt)
    (hvalid : statuts_valides.contains target = true)
    (hp : db.findPrompt pid = some p) :
    (role = "admin" →
      update_prompt_status role uid pid target now db =
        (.updated { p with statut := target, date_derniere_modification := some now },
         db.updatePromptStatut pid target now)) ∧
    (role ≠ "admin" → p.id_createur = uid →
      (target = "a_supprimer" →
        update_prompt_status role uid pid target now db =
          (.updated { p with statut := target, date_derniere_modification := some now },
           db.updatePromptStatut pid target now)) ∧
      (target ≠ "a_supprimer" →
        update_prompt_status role uid pid target now db = (.forbiddenCreator, db))) ∧
    (role ≠ "admin" → p.id_createur ≠ uid →
      update_prompt_status role uid pid target now db = (.unauthorized, db)) := by
  have hvalid' : target ∈ statuts_valides := by simpa using hvalid
  refine ⟨?_, ?_, ?_⟩
  · intro hr
    simp [update_prompt_status, hvalid', hp, hr]
  · intro hr hcr
    constructor
    · intro ht
      subst ht
      simp [update_prompt_status, hvalid', hp, hr, hcr]
    · intro ht
      simp [update_prompt_status, hvalid', hp, hr, hcr, ht]
  · intro hr hcr
    simp [update_prompt_status, hvalid', hp, hr, hcr]

/-- A concrete database for status changes: prompt 1 is `en_attente`,
created by user 100. -/
def dbC4 : DB :=
  ⟨[⟨1, "en_attente", 100, 0, none⟩], [], [], [⟨100, "user", some 1⟩, ⟨50, "user", none⟩], 1⟩

/-- Witness for `statusChange_authorization`: the admin applies `activer`;
the creator's `a_supprimer` succeeds while the creator's `activer` is a
403; user 50 is rejected outright. -/
theorem statusChange_authorization_instance :
    update_prompt_status "admin" 7 1 "activer" 42 dbC4 =
      (.updated ⟨1, "activer", 100, 0, some 42⟩, dbC4.updatePromptStatut 1 "activer" 42) ∧
    update_prompt_status "user" 100 1 "a_supprimer" 42 dbC4 =
      (.updated ⟨1, "a_supprimer", 100, 0, some 42⟩, dbC4.updatePromptStatut 1 "a_supprimer" 42) ∧
    update_prompt_status "user" 100 1 "activer" 42 dbC4 = (.forbiddenCreator, dbC4) ∧
    update_prompt_status "user" 50 1 "activer" 42 dbC4 = (.unauthorized, dbC4) := by
  refine ⟨?_, ?_, ?_, ?_⟩
  · exact (statusChange_authorization dbC4 "admin" 7 1 "activer" 42
      ⟨1, "en_attente", 100, 0, none⟩ (by decide) (by decide)).1 rfl
  · exact ((statusChange_authorization dbC4 "user" 100 1 "a_supprimer" 42
      ⟨1, "en_attente", 100, 0, none⟩ (by decide) (by decide)).2.1 (by decide) rfl).1 rfl
  · exact ((statusChange_authorization dbC4 "user" 100 1 "activer" 42
      ⟨1, "en_attente", 100, 0, none⟩ (by decide) (by decide)).2.1 (by decide) rfl).2 (by decide)
  · exact (statusChange_authorization dbC4 "user" 50 1 "activer" 42
      ⟨1, "en_attente", 100, 0, none⟩ (by decide) (by decide)).2.2 (by decide) (by decide)

/-- A database with prompt 1 already `activer` (activated at time 5). -/
def dbC5 : DB :=
  ⟨[⟨1, "activer", 100, 0, some 5⟩], [], [], [⟨100, "user", some 1⟩], 1⟩

/-- C5 counterexample: an admin force-activate on a prompt that is already
`activer` is answered with the HTTP 400 error "Ce prompt ne peut pas être
activé par vote", not with a no-op success — refuting the claim that the
call returns success. -/
theorem forceActivate_already_active_errors :
    activate_prompt_by_vote "admin" 1 99 dbC5 = (.notActivatable, dbC5) ∧
    (activate_prompt_by_vote "admin" 1 99 dbC5).1.httpStatus = 400 ∧
    (activate_prompt_by_vote "admin" 1 99 dbC5).1.httpStatus ≠ 200 := by
  refine ⟨by decide, by decide, by decide⟩

/-- C5 amended: an admin force-activate on a prompt whose status is
`activer` (indeed, any status other than `rappel`) is rejected with the
400 error and the database — in particular the prompt's status and
`date_derniere_modification` — is left unchanged. -/
theorem forceActivate_non_rappel_rejected (db : DB) (pid now : Nat) (p : Prompt)
    (hp : db.findPrompt pid = some p) (hst : p.statut ≠ "rappel") :
    activate_prompt_by_vote "admin" pid now db = (.notActivatable, db) ∧
    (activate_prompt_by_vote "admin" pid now db).1.httpStatus = 400 := by
  have h : activate_prompt_by_vote "admin" pid now db = (.notActivatable, db) := by
    simp [activate_prompt_by_vote, hp, hst]
  exact ⟨h, by rw [h]; rfl⟩

/-- Witness for `forceActivate_non_rappel_rejected` at `dbC5`. -/
theorem forceActivate_non_rappel_rejected_instance :
    activate_prompt_by_vote "admin" 1 77 dbC5 = (.notActivatable, dbC5) ∧
    (activate_prompt_by_vote "admin" 1 77 dbC5).1.httpStatus = 400 :=
  forceActivate_non_rappel_rejected dbC5 1 77 ⟨1, "activer", 100, 0, some 5⟩
    (by decide) (by decide)

/-- A note row whose joins all resolve carries its value times the spec's
weight. -/
theorem noteWeightedRow_eq_spec (db : DB) (pid : Nat) (p : Prompt) (u2 : Utilisateur)
    (hp : db.findPrompt pid = some p) (hc : db.findUser p.id_createur = some u2)
    (n : Note) (h : n.id_prompt = pid) (hu : (db.findUser n.id_utilisateur).isSome) :
    noteWeightedRow db pid n =
      some (n.valeur * specNoteWeight ((db.findUser n.id_utilisateur).bind Utilisateur.id_groupe)
        u2.id_groupe) := by
  obtain ⟨u1, hu1⟩ := Option.isSome_iff_exists.mp hu
  unfold noteWeightedRow
  rw [h]
  simp [hu1, hp, hc, noteCase_eq_specNoteWeight]

/-- A note on another prompt contributes no row. -/
theorem noteWeightedRow_eq_none (db : DB) (pid : Nat) (n : Note) (h : n.id_prompt ≠ pid) :
    noteWeightedRow db pid n = none := by
  unfold noteWeightedRow
  rw [if_neg (by simpa using h)]

/-- The joined note rows agree with the spec's weighted values, note by
note, whenever the prompt, its creator and every rater resolve. -/
theorem noteWeightedRowsOf_spec (db : DB) (pid : Nat) (p : Prompt) (u2 : Utilisateur)
    (hp : db.findPrompt pid = some p) (hc : db.findUser p.id_createur = some u2) :
    ∀ ns : List Note,
      (∀ n ∈ ns, n.id_prompt = pid → (db.findUser n.id_utilisateur).isSome) →
      noteWeightedRowsOf db pid ns =
        (ns.filter (fun n => n.id_prompt == pid)).map
          (fun n => n.valeur * specNoteWeight
            ((db.findUser n.id_utilisateur).bind Utilisateur.id_groupe) u2.id_groupe) := by
  intro ns
  induction ns with
  | nil => intro _; rfl
  | cons n ns ih =>
    intro hn
    have hns := fun m hm hmp => hn m (List.mem_cons_of_mem n hm) hmp
    by_cases h : n.id_prompt = pid
    · rw [noteWeightedRowsOf, List.filterMap_cons,
        noteWeightedRow_eq_spec db pid p u2 hp hc n h (hn n (List.mem_cons_self n ns) h),
        List.filter_cons, if_pos (by simpa using h), List.map_cons]
      exact congrArg _ (ih hns)
    · rw [noteWeightedRowsOf, List.filterMap_cons, noteWeightedRow_eq_none db pid n h,
        List.filter_cons, if_neg (by simpa using h)]
      exact ih hns

/-- The aggregate row equals the spec's formula: the weighted sum divided
by the raw note count. -/
theorem noteQuery_eq_spec (db : DB) (pid : Nat) (p : Prompt) (u2 : Utilisateur)
    (hp : db.findPrompt pid = some p) (hc : db.findUser p.id_createur = some u2)
    (hr : ∀ n ∈ db.notes, n.id_prompt = pid → (db.findUser n.id_utilisateur).isSome) :
    noteQuery db pid =
      ⟨((db.notes.filter (fun n => n.id_prompt == pid)).map
          (fun n => n.valeur * specNoteWeight
            ((db.findUser n.id_utilisateur).bind Utilisateur.id_groupe) u2.id_groupe)).sum /
        ((db.notes.filter (fun n => n.id_prompt == pid)).length : ℚ),
       (db.notes.filter (fun n => n.id_prompt == pid)).length⟩ := by
  have hrows : noteWeightedRows db pid =
      (db.notes.filter (fun n => n.id_prompt == pid)).map
        (fun n => n.valeur * specNoteWeight
          ((db.findUser n.id_utilisateur).bind Utilisateur.id_groupe) u2.id_groupe) :=
    noteWeightedRowsOf_spec db pid p u2 hp hc db.notes hr
  have hlen : (db.notes.filter (fun n => n.id_prompt == pid)).length =
      (noteWeightedRows db pid).length := by
    rw [hrows, List.length_map]
  unfold noteQuery
  rw [hlen, ← hrows]
  cases hcase : noteWeightedRows db pid with
  | nil => simp [sqlSumRat]
  | cons a l => rfl

/-- C7: for every `activer` prompt, the detail endpoint returns the
aggregate `moyenne_ponderee = (Σ valeur × (0.6 if the rater shares the
creator's non-null groupe else 0.4)) / n` with `n` the raw note count,
and `nombre_notes = n`; with zero notes the aggregate is `⟨0, 0⟩`. -/
theorem getPrompt_weighted_average (db : DB) (pid : Nat) (jwt : Option (String × Nat))
    (p : Prompt) (u2 : Utilisateur)
    (hp : db.findPrompt pid = some p) (hc : db.findUser p.id_createur = some u2)
    (hst : p.statut = "activer")
    (hr : ∀ n ∈ db.notes, n.id_prompt = pid → (db.findUser n.id_utilisateur).isSome) :
    get_prompt jwt pid db =
      .promptWithNotes p
        ⟨((db.notes.filter (fun n => n.id_prompt == pid)).map
            (fun n => n.valeur * specNoteWeight
              ((db.findUser n.id_utilisateur).bind Utilisateur.id_groupe) u2.id_groupe)).sum /
          ((db.notes.filter (fun n => n.id_prompt == pid)).length : ℚ),
         (db.notes.filter (fun n => n.id_prompt == pid)).length⟩ ∧
    ((db.notes.filter (fun n => n.id_prompt == pid)).length = 0 →
      noteQuery db pid = ⟨0, 0⟩) := by
  have hq := noteQuery_eq_spec db pid p u2 hp hc hr
  constructor
  · rw [← hq]
    simp [get_prompt, hp, hc, hst]
  · intro h0
    rw [hq]
    rw [List.length_eq_zero.mp h0]
    simp

/-- Scenario E's database: prompt 2 `activer` by user 100 (groupe 1) with
notes 5 (same groupe) and 10 (no groupe); prompt 3 `activer` with no
notes. -/
def dbC7 : DB :=
  ⟨[⟨2, "activer", 100, 0, none⟩, ⟨3, "activer", 100, 1, none⟩],
   [],
   [⟨1, 21, 2, 5⟩, ⟨2, 11, 2, 10⟩],
   [⟨100, "user", some 1⟩, ⟨21, "user", some 1⟩, ⟨11, "user", none⟩],
   1⟩

/-- Witness for `getPrompt_weighted_average`: Scenario E gives
`(5·0.6 + 10·0.4) / 2 = 3.5` with count 2, and the note-less prompt 3
aggregates to `⟨0, 0⟩`. -/
theorem getPrompt_weighted_average_instance :
    get_prompt none 2 dbC7 =
      .promptWithNotes ⟨2, "activer", 100, 0, none⟩ (noteQuery dbC7 2) ∧
    (noteQuery dbC7 2).moyenne_ponderee = 7 / 2 ∧
    (noteQuery dbC7 2).nombre_notes = 2 ∧
    noteQuery dbC7 3 = ⟨0, 0⟩ := by
  refine ⟨?_, ?_, rfl, ?_⟩
  · have h := (getPrompt_weighted_average dbC7 2 none ⟨2, "activer", 100, 0, none⟩
      ⟨100, "user", some 1⟩ (by decide) (by decide) (by decide) (by decide)).1
    rw [h, ← noteQuery_eq_spec dbC7 2 ⟨2, "activer", 100, 0, none⟩ ⟨100, "user", some 1⟩
      (by decide) (by decide) (by decide)]
  · have hrows : noteWeightedRows dbC7 2 = [(5 : ℚ) * (6 / 10), (10 : ℚ) * (4 / 10)] := rfl
    simp only [noteQuery, hrows, sqlSumRat]
    norm_num
  · exact (getPrompt_weighted_average dbC7 3 none ⟨3, "activer", 100, 1, none⟩
      ⟨100, "user", some 1⟩ (by decide) (by decide) (by decide) (by decide)).2 (by decide)

/-- Membership in the prompt–creator join. -/
theorem mem_promptCreatorRows (db : DB) (pr : Prompt) (u : Utilisateur) :
    (pr, u) ∈ promptCreatorRows db ↔
      pr ∈ db.prompts ∧ db.findUser pr.id_createur = some u := by
  unfold promptCreatorRows
  rw [List.mem_filterMap]
  constructor
  · rintro ⟨a, ha, hf⟩
    rw [Option.map_eq_some'] at hf
    obtain ⟨w, hw, heq⟩ := hf
    simp only [Prod.mk.injEq] at heq
    obtain ⟨rfl, rfl⟩ := heq
    exact ⟨ha, hw⟩
  · rintro ⟨ha, hu⟩
    exact ⟨pr, ha, by rw [hu]; rfl⟩

/-- The pending-moderation comparator is transitive. -/
theorem pendingLe_trans (a b c : Prompt × Utilisateur) :
    pendingLe a b → pendingLe b c → pendingLe a c := by
  intro hab hbc
  simp only [pendingLe, Bool.or_eq_true, Bool.and_eq_true, decide_eq_true_eq,
    beq_iff_eq] at *
  omega

/-- The pending-moderation comparator is total. -/
theorem pendingLe_total (a b : Prompt × Utilisateur) :
    pendingLe a b || pendingLe b a := by
  simp only [pendingLe, Bool.or_eq_true, Bool.and_eq_true, decide_eq_true_eq,
    beq_iff_eq]
  omega

/-- C8: for every admin call of the pending-moderation listing, the result
consists exactly of the prompts whose status is `en_attente`, `a_revoir`,
`a_supprimer` or `rappel`, ordered first by the status priority
`a_supprimer` (1) > `rappel` (2) > `en_attente` (3) > `a_revoir` (4) and
within equal status by `date_creation` ascending. -/
theorem pendingModeration_listing (db : DB) (role : String)
    (hrole : role = "admin")
    (hri : ∀ p ∈ db.prompts, (db.findUser p.id_createur).isSome) :
    ∃ l, get_pending_prompts role db = some l ∧
      l.Perm ((promptCreatorRows db).filter (fun x => pendingStatuts.contains x.1.statut)) ∧
      (∀ pr : Prompt, (∃ u, (pr, u) ∈ l) ↔
        pr ∈ db.prompts ∧ pr.statut ∈ pendingStatuts) ∧
      l.Pairwise (fun x y =>
        pendingStatutOrder x.1.statut < pendingStatutOrder y.1.statut ∨
        (pendingStatutOrder x.1.statut = pendingStatutOrder y.1.statut ∧
          x.1.date_creation ≤ y.1.date_creation)) ∧
      pendingStatutOrder "a_supprimer" = 1 ∧ pendingStatutOrder "rappel" = 2 ∧
      pendingStatutOrder "en_attente" = 3 ∧ pendingStatutOrder "a_revoir" = 4 := by
  refine ⟨((promptCreatorRows db).filter
      (fun x => pendingStatuts.contains x.1.statut)).mergeSort pendingLe,
    ?_, List.mergeSort_perm _ _, ?_, ?_, rfl, rfl, rfl, rfl⟩
  · simp [get_pending_prompts, hrole]
  · intro pr
    constructor
    · rintro ⟨u, hu⟩
      have hmem := (List.mergeSort_perm _ pendingLe).mem_iff.mp hu
      rw [List.mem_filter] at hmem
      have hm := (mem_promptCreatorRows db pr u).mp hmem.1
      exact ⟨hm.1, by simpa using hmem.2⟩
    · rintro ⟨hp, hs⟩
      obtain ⟨u, hu⟩ := Option.isSome_iff_exists.mp (hri pr hp)
      refine ⟨u, (List.mergeSort_perm _ pendingLe).mem_iff.mpr ?_⟩
      rw [List.mem_filter]
      exact ⟨(mem_promptCreatorRows db pr u).mpr ⟨hp, hu⟩, by simpa using hs⟩
  · refine (List.sorted_mergeSort pendingLe_trans pendingLe_total _).imp ?_
    intro a b h
    simpa only [pendingLe, Bool.or_eq_true, Bool.and_eq_true, decide_eq_true_eq,
      beq_iff_eq] using h

/-- A mixed database for the pending listing: prompts in four pending
statuses plus one `activer` prompt that must be excluded. -/
def dbC8 : DB :=
  ⟨[⟨1, "en_attente", 100, 10, none⟩, ⟨2, "a_supprimer", 100, 5, none⟩,
    ⟨3, "rappel", 100, 3, none⟩, ⟨4, "activer", 100, 1, none⟩,
    ⟨5, "a_supprimer", 100, 2, none⟩],
   [], [], [⟨100, "user", some 1⟩], 1⟩

/-- Witness for `pendingModeration_listing` at `dbC8`. -/
theorem pendingModeration_listing_instance :
    ∃ l, get_pending_prompts "admin" dbC8 = some l ∧
      l.Perm ((promptCreatorRows dbC8).filter
        (fun x => pendingStatuts.contains x.1.statut)) ∧
      (∀ pr : Prompt, (∃ u, (pr, u) ∈ l) ↔
        pr ∈ dbC8.prompts ∧ pr.statut ∈ pendingStatuts) ∧
      l.Pairwise (fun x y =>
        pendingStatutOrder x.1.statut < pendingStatutOrder y.1.statut ∨
        (pendingStatutOrder x.1.statut = pendingStatutOrder y.1.statut ∧
          x.1.date_creation ≤ y.1.date_creation)) ∧
      pendingStatutOrder "a_supprimer" = 1 ∧ pendingStatutOrder "rappel" = 2 ∧
      pendingStatutOrder "en_attente" = 3 ∧ pendingStatutOrder "a_revoir" = 4 :=
  pendingModeration_listing dbC8 "admin" rfl (by decide)

/-- C10: for every caller of the prompt listing that is not an
authenticated admin (an ordinary user or no Authorization header at all),
the result is independent of the requested `statut` parameter — the
filter is silently forced to `activer`, only `activer` prompts are
returned, and the output is the normal 200 list (no error path exists for
the ignored parameter). -/
theorem listing_forced_active (db : DB) (s s' : Option String) (jwt jwt' : Option String)
    (h : ∀ r, jwt = some r → r ≠ "admin") (h' : ∀ r, jwt' = some r → r ≠ "admin") :
    get_prompts s jwt db = get_prompts s' jwt' db ∧
    get_prompts s jwt db =
      ((promptCreatorRows db).filter (fun x => x.1.statut == "activer")).mergeSort dateDescLe ∧
    (∀ x ∈ get_prompts s jwt db, x.1.statut = "activer") := by
  have key : ∀ (s0 j : Option String), (∀ r, j = some r → r ≠ "admin") →
      get_prompts s0 j db =
        ((promptCreatorRows db).filter
          (fun x => x.1.statut == "activer")).mergeSort dateDescLe := by
    intro s0 j hj
    unfold get_prompts
    cases j with
    | none => rfl
    | some r => simp [hj r rfl]
  refine ⟨(key s jwt h).trans (key s' jwt' h').symm, key s jwt h, ?_⟩
  intro x hx
  rw [key s jwt h] at hx
  have hmem := (List.mergeSort_perm _ dateDescLe).mem_iff.mp hx
  rw [List.mem_filter] at hmem
  simpa using hmem.2

/-- Witness for `listing_forced_active`: on `dbC8` an ordinary user asking
for `statut=rappel` gets the same response as an anonymous caller with no
parameter, and every returned prompt is `activer`. -/
theorem listing_forced_active_instance :
    get_prompts (some "rappel") (some "user") dbC8 = get_prompts none none dbC8 ∧
    (∀ x ∈ get_prompts (some "rappel") (some "user") dbC8, x.1.statut = "activer") := by
  have h := listing_forced_active dbC8 (some "rappel") none (some "user") none
    (fun r hr => by
      injection hr with h2
      subst h2
      decide)
    (fun r hr => nomatch hr)
  exact ⟨h.1, h.2.2⟩

/-- C6 counterexample: on `dbB` user 16's vote lifts the total to 6, so the
activation update runs; if that update fails, the whole operation does NOT
abort — the inserted vote stays committed while the status write is lost
(the caller gets a 500), leaving the database changed and the prompt still
`rappel`. This refutes the claim that the insert, tally and status write
execute as one atomic unit. -/
theorem castVote_partial_commit :
    (vote_prompt_fallible 16 1 99 false false true dbB).1 = .serverError ∧
    (vote_prompt_fallible 16 1 99 false false true dbB).2 ≠ dbB ∧
    (vote_prompt_fallible 16 1 99 false false true dbB).2.votes =
      dbB.votes ++ [⟨6, 16, 1⟩] ∧
    ((vote_prompt_fallible 16 1 99 false false true dbB).2.findPrompt 1).map Prompt.statut =
      some "rappel" := by
  exact ⟨rfl, by decide, rfl, rfl⟩

/-- C6 amended: each `execute_query` call commits its own transaction, so
a failing query has no effect itself but does not roll back the queries
already committed — a failure in the insert leaves the database unchanged,
while a failure in the tally or in the activation update leaves exactly
the new vote committed and (in the update case) the status still
`rappel`. -/
theorem castVote_per_query_commit (db : DB) (uid pid now : Nat) (p : Prompt)
    (hp : db.findPrompt pid = some p) (hst : p.statut = "rappel")
    (hcr : p.id_createur ≠ uid) (hv : db.hasVote uid pid = false) :
    vote_prompt_fallible uid pid now true false false db = (.serverError, db) ∧
    vote_prompt_fallible uid pid now false true false db =
      (.serverError, (db.insertVote uid pid).2) ∧
    (6 ≤ totalPoints (db.insertVote uid pid).2 pid →
      vote_prompt_fallible uid pid now false false true db =
        (.serverError, (db.insertVote uid pid).2) ∧
      ((db.insertVote uid pid).2.findPrompt pid).map Prompt.statut = some "rappel") := by
  have hred : ∀ fi ft fu : Bool, vote_prompt_fallible uid pid now fi ft fu db =
      (if fi then (.serverError, db)
       else if ft then (.serverError, (db.insertVote uid pid).2)
       else if 6 ≤ totalPoints (db.insertVote uid pid).2 pid then
         (if fu then (.serverError, (db.insertVote uid pid).2)
          else (.activated (db.insertVote uid pid).1
                  (totalPoints (db.insertVote uid pid).2 pid),
                (db.insertVote uid pid).2.updatePromptStatut pid "activer" now))
       else (.recorded (db.insertVote uid pid).1 (totalPoints (db.insertVote uid pid).2 pid)
              ((6 : Int) - totalPoints (db.insertVote uid pid).2 pid),
             (db.insertVote uid pid).2)) := by
    intro fi ft fu
    simp only [vote_prompt_fallible, hp, hst]
    simp only [ne_eq, not_true_eq_false, if_false, beq_iff_eq]
    rw [if_neg (by simpa using hcr), if_neg (by simp [hv])]
  refine ⟨by rw [hred]; rfl, by rw [hred]; rfl, ?_⟩
  intro h6
  refine ⟨by rw [hred]; simp [h6], ?_⟩
  rw [findPrompt_insertVote, hp, Option.map_some', hst]

/-- Witness for `castVote_per_query_commit` at `dbB`: an insert failure
leaves `dbB` unchanged, while an update failure leaves exactly the new
vote. -/
theorem castVote_per_query_commit_instance :
    vote_prompt_fallible 16 1 99 true false false dbB = (.serverError, dbB) ∧
    vote_prompt_fallible 16 1 99 false false true dbB =
      (.serverError, (dbB.insertVote 16 1).2) := by
  have h := castVote_per_query_commit dbB 16 1 99 ⟨1, "rappel", 100, 0, none⟩
    (by decide) (by decide) (by decide) (by decide)
  exact ⟨h.1, (h.2.2 (by decide)).1⟩

/-- Prompt 1 in `rappel` with four committed weight-1 votes; users 21 and
22 have not voted, and one more weight-1 vote each brings the total to 6. -/
def dbC9 : DB :=
  ⟨[⟨1, "rappel", 100, 0, none⟩],
   [⟨1, 11, 1⟩, ⟨2, 12, 1⟩, ⟨3, 13, 1⟩, ⟨4, 14, 1⟩],
   [],
   [⟨100, "user", some 1⟩, ⟨11, "user", none⟩, ⟨12, "user", none⟩, ⟨13, "user", none⟩,
    ⟨14, "user", none⟩, ⟨21, "user", none⟩, ⟨22, "user", none⟩],
   5⟩

/-- Prompt 1 in `rappel` with no votes yet; user 21 has not voted. -/
def dbC9b : DB :=
  ⟨[⟨1, "rappel", 100, 0, none⟩], [], [], [⟨100, "user", some 1⟩, ⟨21, "user", none⟩], 1⟩

/-- C9 counterexample: an interleaving of two concurrent castVote calls by
users 21 and 22 on prompt 1 in which both inserts commit before either
tally runs — both tallies then read total 6 and BOTH calls perform the
activation update and report activation, refuting the claim that the two
calls cannot both trigger activation. -/
theorem concurrentVotes_both_activate :
    (runSchedule [true, true, false, false, true, false, true, true, false, false]
      (VoteThread.start 21 1 99) (VoteThread.start 22 1 98) dbC9).1.result =
      some (.activated 5 6) ∧
    (runSchedule [true, true, false, false, true, false, true, true, false, false]
      (VoteThread.start 21 1 99) (VoteThread.start 22 1 98) dbC9).2.1.result =
      some (.activated 6 6) := ⟨rfl, rfl⟩

/-- C9 amended: the per-query transactions are atomic individually, but
the read–tally–maybe-activate sequence is not serialized per prompt —
there is an interleaving in which two calls by the same voter both pass
the duplicate-vote check and both insert (in this embedding, which has no
table constraint, two votes for the pair persist), and an interleaving in
which two calls by distinct voters both reach total 6 and both perform
the activation update. -/
theorem concurrentVotes_not_serializable :
    (runSchedule [true, true, false, false, true, false, true, false]
      (VoteThread.start 21 1 99) (VoteThread.start 21 1 98) dbC9b).1.result =
      some (.recorded 1 2 4) ∧
    (runSchedule [true, true, false, false, true, false, true, false]
      (VoteThread.start 21 1 99) (VoteThread.start 21 1 98) dbC9b).2.1.result =
      some (.recorded 2 2 4) ∧
    (runSchedule [true, true, false, false, true, false, true, false]
      (VoteThread.start 21 1 99) (VoteThread.start 21 1 98) dbC9b).2.2.votes =
      [⟨1, 21, 1⟩, ⟨2, 21, 1⟩] ∧
    (runSchedule [true, true, false, false, true, false, true, true, false, false]
      (VoteThread.start 22 1 99) (VoteThread.start 21 1 98) dbC9).1.result =
      some (.activated 5 6) ∧
    (runSchedule [true, true, false, false, true, false, true, true, false, false]
      (VoteThread.start 22 1 99) (VoteThread.start 21 1 98) dbC9).2.1.result =
      some (.activated 6 6) := ⟨rfl, rfl, rfl, rfl, rfl⟩

end Pojat
